import Mathlib

/-!
# ci-job-builder-service: the BuildJob handler

A shallow embedding of `internal/app/job_builder/job_builder.go`.

* Go pointers are `Option` (`none` is the nil pointer); dereferencing a nil
  pointer is the error branch of `Except Panic`.
* Go maps are association lists under `Option` (`none` is the nil map).
* The handler's collaborators (the JSON, YAML and mapstructure libraries, the
  clock and the Nomad client) are the fields of `Deps`; the handler is a pure
  function of them and of the request.
* What the handler does to the outside world is recorded in `Run`: the
  status codes passed to `WriteHeader`, the chunks written to the response
  body, the jobs passed to `Register`, and whether the handler panicked.
* Logging (and the computation of the remote address that is only logged) has
  no effect on the response or on the scheduler and is left out.
-/

namespace JobBuilder

/-! ## Data model -/

/-- Untyped document value, the content of an `interface{}` that a markup
decoder produced. Numbers are kept as their literal text. -/
inductive Value where
  | null : Value
  | bool (b : Bool) : Value
  | num (lit : String) : Value
  | str (s : String) : Value
  | list (xs : List Value) : Value
  | map (kvs : List (String × Value)) : Value

/-- Whether a document value is a mapping. -/
def Value.isMapping : Value → Bool
  | .map _ => true
  | _ => false

/-- Go run-time panics the handler can raise. -/
inductive Panic where
  | nilDereference : Panic
  deriving DecidableEq, Repr

/-- Pointer dereference `*p`. -/
def deref {α : Type} : Option α → Except Panic α
  | some a => .ok a
  | none => .error .nilDereference

/-- Modelled from the spec: the declaration of `nomadapi.TaskArtifact` is not
part of the sources. The spec gives an artifact a source, an optional
destination and optional options; the source is a `*string` in the handler
(it is dereferenced at the comparison). -/
structure TaskArtifact where
  GetterSource : Option String := none
  GetterOptions : Option (List (String × String)) := none
  RelativeDest : Option String := none
  deriving DecidableEq, Repr

/-- Modelled from the spec: the declaration of `nomadapi.Resources` is not
part of the sources; the spec calls it an opaque resource-request document. -/
structure Resources where
  doc : Value

/-- The struct `JobSpec`. -/
structure JobSpec where
  Driver : String := ""
  Config : Option (List (String × Value)) := none
  Artifacts : List (Option TaskArtifact) := []
  Env : Option (List (String × String)) := none
  Resources : Option Resources := none

/-- The struct `JobBuilderPayload`. -/
structure JobBuilderPayload where
  JobSpec : String := ""
  SourceArchive : String := ""
  deriving DecidableEq, Repr

/-- The fields of `nomadapi.RestartPolicy` that the handler sets. -/
structure RestartPolicy where
  Attempts : Option Int := none
  Mode : Option String := none
  deriving DecidableEq, Repr

/-- The fields of `nomadapi.Task` that the handler sets. -/
structure Task where
  Name : String := ""
  Driver : String := ""
  Config : Option (List (String × Value)) := none
  Meta : Option (List (String × String)) := none
  Env : Option (List (String × String)) := none
  Resources : Option Resources := none
  Artifacts : List (Option TaskArtifact) := []

/-- The fields of `nomadapi.TaskGroup` that the handler sets. -/
structure TaskGroup where
  Name : Option String := none
  RestartPolicy : Option RestartPolicy := none
  Tasks : List (Option Task) := []

/-- The fields of `nomadapi.Job` that the handler sets (`Type_` is the field
`Type`, a reserved word here). -/
structure Job where
  ID : Option String := none
  Name : Option String := none
  Datacenters : List String := []
  Type_ : Option String := none
  TaskGroups : List (Option TaskGroup) := []

/-- The field of `nomadapi.JobRegisterResponse` that the handler reads. -/
structure JobRegisterResponse where
  EvalID : String := ""
  deriving DecidableEq, Repr

/-- The part of `http.Request` the handler's response depends on: the result
of `ioutil.ReadAll(req.Body)`. -/
structure Request where
  Body : Except String String

/-- The collaborators of the handler.

* `jsonUnmarshal body` is `json.Unmarshal(body, &payload)`;
* `yamlParse text` is the parse of the markup to a top-level value;
* `decodeFields kvs` is `mapstructure.Decode` on a non-nil map;
* `now` is `time.Now().Unix()`;
* `Register job` is `self.nomad.Register(job, nil)`: the error, or the
  response, which the Nomad client always returns when it returns no error. -/
structure Deps where
  jsonUnmarshal : String → Except String JobBuilderPayload
  yamlParse : String → Except String Value
  decodeFields : List (String × Value) → Except String JobSpec
  now : Int
  Register : Job → Except String JobRegisterResponse

/-- What one call of the handler did. -/
structure Run where
  Codes : List Nat := []
  Written : List String := []
  Registered : List Job := []
  Panicked : Option Panic := none

/-! ## Constants and helpers -/

/-- The constant `http.StatusBadRequest`. -/
def StatusBadRequest : Nat := 400

/-- The constant `http.StatusInternalServerError`. -/
def StatusInternalServerError : Nat := 500

/-- The constant `http.StatusNoContent`. -/
def StatusNoContent : Nat := 204

/-- Modelled from the spec: `StringToPtr` is defined in a file of the package
that is not part of the sources; the spec's data model has plain strings where
the handler calls it, so it returns a pointer to its argument. -/
def StringToPtr (s : String) : Option String := some s

/-- Modelled from the spec: `IntToPtr` is defined in a file of the package that
is not part of the sources; the spec has `attempts: int`, so it returns a
pointer to its argument. -/
def IntToPtr (n : Int) : Option Int := some n

/-- The literal `"${NOMAD_META_nomadci_clone_source}"`. -/
def placeholder : String := "$\x7bNOMAD_META_nomadci_clone_source\x7d"

/-- The call `fmt.Sprintf("ci-job/%d", t)`. -/
def jobIdOf (t : Int) : String := "ci-job/" ++ toString t

/-! ## Decoding -/

/-- Storing a parsed document in `var untypedJobSpec map[string]interface{}`:
`yaml.Unmarshal` re-encodes the parsed document as JSON and hands it to
`json.Unmarshal`, which sets a map to nil on `null`, fills it from an object
and rejects every other value. -/
def unmarshalIntoMap : Value → Except String (Option (List (String × Value)))
  | .null => .ok none
  | .map kvs => .ok (some kvs)
  | _ => .error "json: cannot unmarshal into Go value of type map[string]interface {}"

/-- The call `yaml.Unmarshal([]byte(payload.JobSpec), &untypedJobSpec)`. -/
def yamlUnmarshal (self : Deps) (text : String) :
    Except String (Option (List (String × Value))) :=
  match self.yamlParse text with
  | .error e => .error e
  | .ok v => unmarshalIntoMap v

/-- The call `mapstructure.Decode(untypedJobSpec, &jobSpec)` on a freshly
declared `jobSpec`: a nil map has no keys, so no field is set and no error is
raised; a non-nil map is decoded by the library. -/
def mapstructureDecode (self : Deps) :
    Option (List (String × Value)) → Except String JobSpec
  | none => .ok {}
  | some kvs => self.decodeFields kvs

/-! ## Reconciliation of the artifact list (lines 107-129) -/

/-- The loop over `jobSpec.Artifacts`: the value of `defaultArtifactSatisfied`
when the loop ends, or the panic it raises. -/
def defaultArtifactSatisfied (defaultArtifactSource : Option String) :
    List (Option TaskArtifact) → Except Panic Bool
  | [] => .ok false
  | artifact :: rest =>
    match deref artifact with
    | .error p => .error p
    | .ok a =>
      match deref a.GetterSource with
      | .error p => .error p
      | .ok src =>
        match deref defaultArtifactSource with
        | .error p => .error p
        | .ok dflt =>
          if src = dflt then .ok true
          else defaultArtifactSatisfied defaultArtifactSource rest

/-- The artifact the handler synthesizes. -/
def defaultArtifact : TaskArtifact :=
  { GetterSource := StringToPtr placeholder }

/-- The reconciliation step: the new value of `jobSpec.Artifacts`. -/
def reconcile (artifacts : List (Option TaskArtifact)) :
    Except Panic (List (Option TaskArtifact)) :=
  match defaultArtifactSatisfied (StringToPtr placeholder) artifacts with
  | .error p => .error p
  | .ok true => .ok artifacts
  | .ok false => .ok ([some defaultArtifact] ++ artifacts)

/-! ## Assembly and the handler -/

/-- The job literal of lines 132-169, with `jobSpec.Artifacts` already
reconciled. -/
def assemble (jobId : String) (jobSpec : JobSpec) (payload : JobBuilderPayload) : Job :=
  { ID := StringToPtr jobId
    Name := StringToPtr jobId
    Datacenters := ["dc1"]
    Type_ := StringToPtr "batch"
    TaskGroups := [some
      { Name := StringToPtr "builder"
        RestartPolicy := some
          { Attempts := IntToPtr 0
            Mode := StringToPtr "fail" }
        Tasks := [some
          { Name := "builder"
            Driver := jobSpec.Driver
            Config := jobSpec.Config
            Meta := some [("nomadci.clone_source", payload.SourceArchive)]
            Env := jobSpec.Env
            Resources := jobSpec.Resources
            Artifacts := jobSpec.Artifacts }] }] }

/-- The handler `JobBuilder.BuildJob`. -/
def BuildJob (self : Deps) (req : Request) : Run :=
  match req.Body with
  | .error _ => { Codes := [StatusBadRequest] }
  | .ok body =>
    match self.jsonUnmarshal body with
    | .error _ => { Codes := [StatusBadRequest] }
    | .ok payload =>
      match yamlUnmarshal self payload.JobSpec with
      | .error _ => { Codes := [StatusBadRequest] }
      | .ok untypedJobSpec =>
        match mapstructureDecode self untypedJobSpec with
        | .error _ => { Codes := [StatusBadRequest] }
        | .ok jobSpec =>
          let jobId := jobIdOf self.now
          match reconcile jobSpec.Artifacts with
          | .error p => { Panicked := some p }
          | .ok artifacts =>
            let job := assemble jobId { jobSpec with Artifacts := artifacts } payload
            match self.Register job with
            | .error _ => { Codes := [StatusInternalServerError], Registered := [job] }
            | .ok _ => { Codes := [StatusNoContent], Registered := [job] }

/-! ## Vocabulary of the claims -/

/-- The source of an entry of the artifact list, when the entry is not nil and
its source is set. -/
def sourceOf (artifact : Option TaskArtifact) : Option String :=
  match artifact with
  | none => none
  | some a => a.GetterSource

/-- Whether an entry of the artifact list has the placeholder as its source. -/
def isPlaceholder (artifact : Option TaskArtifact) : Bool :=
  sourceOf artifact == some placeholder

/-- Every entry of the list is an artifact with a source. -/
def AllHaveSource (artifacts : List (Option TaskArtifact)) : Prop :=
  ∀ x ∈ artifacts, (sourceOf x).isSome = true

/-- The number of entries whose source is the placeholder. -/
def placeholderCount (artifacts : List (Option TaskArtifact)) : Nat :=
  artifacts.countP isPlaceholder

/-- The four decoding stages of the handler, in its order: reading the body,
the envelope, the markup of `job_spec`, and the coercion to a `JobSpec`. The
result is the payload and the decoded `JobSpec`, or the first error. -/
def decodeRequest (self : Deps) (req : Request) :
    Except String (JobBuilderPayload × JobSpec) :=
  match req.Body with
  | .error e => .error e
  | .ok body =>
    match self.jsonUnmarshal body with
    | .error e => .error e
    | .ok payload =>
      match yamlUnmarshal self payload.JobSpec with
      | .error e => .error e
      | .ok untypedJobSpec =>
        match mapstructureDecode self untypedJobSpec with
        | .error e => .error e
        | .ok jobSpec => .ok (payload, jobSpec)

/-- The fixed topology of an assembled job: type `batch`, the datacenter
`dc1`, one task group `builder` that is never restarted, one task `builder`. -/
def HasFixedShape (j : Job) : Prop :=
  j.Type_ = some "batch" ∧ j.Datacenters = ["dc1"] ∧
  ∃ g t, j.TaskGroups = [some g] ∧ g.Name = some "builder" ∧
    g.RestartPolicy = some { Attempts := some 0, Mode := some "fail" } ∧
    g.Tasks = [some t] ∧ t.Name = "builder"

/-! ## Test doubles

Concrete collaborators for the scenarios of the specification. Each decoder
knows one input, the one of its scenario, and rejects every other. -/

/-- Collaborators that decode one request body, to the given payload, document
and `JobSpec`. -/
def stubDeps (body : String) (payload : JobBuilderPayload) (doc : Value)
    (decoded : Except String JobSpec) (now : Int)
    (register : Job → Except String JobRegisterResponse) : Deps :=
  { jsonUnmarshal := fun b =>
      if b = body then .ok payload else .error "invalid character"
    yamlParse := fun text =>
      if text = payload.JobSpec then .ok doc else .error "yaml: did not find expected key"
    decodeFields := fun _ => decoded
    now := now
    Register := register }

/-- A scheduler that accepts every job. -/
def acceptAll (_ : Job) : Except String JobRegisterResponse :=
  .ok { EvalID := "b9a6a0a5" }

/-- Scenario A, the request body. -/
def scenarioABody : String :=
  "\x7b\"job_spec\": \"driver: docker\\nconfig:\\n  image: alpine\\n\", \"source_archive\": \"s3://bucket/src.tar.gz\"\x7d"

/-- Scenario A, the envelope. -/
def scenarioAPayload : JobBuilderPayload :=
  { JobSpec := "driver: docker\nconfig:\n  image: alpine\n"
    SourceArchive := "s3://bucket/src.tar.gz" }

/-- Scenario A, the decoded `JobSpec`. -/
def scenarioASpec : JobSpec :=
  { Driver := "docker", Config := some [("image", .str "alpine")] }

/-- Scenario A, the collaborators. -/
def scenarioA : Deps :=
  stubDeps scenarioABody scenarioAPayload
    (.map [("driver", .str "docker"), ("config", .map [("image", .str "alpine")])])
    (.ok scenarioASpec) 1500000000 acceptAll

/-- Scenario A, the request. -/
def scenarioARequest : Request := { Body := .ok scenarioABody }

/-- Scenario A, the job the scheduler receives. -/
def scenarioAJob : Job :=
  assemble "ci-job/1500000000"
    { Driver := "docker", Config := some [("image", .str "alpine")],
      Artifacts := [some defaultArtifact] }
    scenarioAPayload

/-- Another request, the body. -/
def otherBody : String :=
  "\x7b\"job_spec\": \"driver: raw_exec\\nconfig:\\n  command: make\\n\", \"source_archive\": \"s3://bucket/other.tar.gz\"\x7d"

/-- Another request, the envelope. -/
def otherPayload : JobBuilderPayload :=
  { JobSpec := "driver: raw_exec\nconfig:\n  command: make\n"
    SourceArchive := "s3://bucket/other.tar.gz" }

/-- Another request, served in the same second as scenario A. -/
def other : Deps :=
  stubDeps otherBody otherPayload
    (.map [("driver", .str "raw_exec"), ("config", .map [("command", .str "make")])])
    (.ok { Driver := "raw_exec", Config := some [("command", .str "make")] })
    1500000000 acceptAll

/-- Another request, the request. -/
def otherRequest : Request := { Body := .ok otherBody }

/-- Another request, the job the scheduler receives. -/
def otherJob : Job :=
  assemble "ci-job/1500000000"
    { Driver := "raw_exec", Config := some [("command", .str "make")],
      Artifacts := [some defaultArtifact] }
    otherPayload

/-- A request whose `job_spec` declares an artifact without a source, the
body. -/
def sourcelessBody : String :=
  "\x7b\"job_spec\": \"driver: docker\\nartifacts:\\n- destination: local/x\\n\", \"source_archive\": \"s3://bucket/src.tar.gz\"\x7d"

/-- A request whose `job_spec` declares an artifact without a source, the
envelope. -/
def sourcelessPayload : JobBuilderPayload :=
  { JobSpec := "driver: docker\nartifacts:\n- destination: local/x\n"
    SourceArchive := "s3://bucket/src.tar.gz" }

/-- A request whose `job_spec` declares an artifact without a source, the
decoded `JobSpec`. -/
def sourcelessSpec : JobSpec :=
  { Driver := "docker", Artifacts := [some { RelativeDest := some "local/x" }] }

/-- A request whose `job_spec` declares an artifact without a source, the
collaborators. -/
def sourceless : Deps :=
  stubDeps sourcelessBody sourcelessPayload
    (.map [("driver", .str "docker"),
      ("artifacts", .list [.map [("destination", .str "local/x")]])])
    (.ok sourcelessSpec) 1500000000 acceptAll

/-- A request whose `job_spec` declares an artifact without a source, the
request. -/
def sourcelessRequest : Request := { Body := .ok sourcelessBody }

/-- A request whose `job_spec` is the empty document, the body. -/
def emptySpecBody : String :=
  "\x7b\"job_spec\": \"\", \"source_archive\": \"s3://bucket/src.tar.gz\"\x7d"

/-- A request whose `job_spec` is the empty document, the envelope. -/
def emptySpecPayload : JobBuilderPayload :=
  { JobSpec := "", SourceArchive := "s3://bucket/src.tar.gz" }

/-- A request whose `job_spec` is the empty document, the collaborators: the
markup parses to null, and the library is never asked to decode a map. -/
def emptySpec : Deps :=
  stubDeps emptySpecBody emptySpecPayload .null
    (.error "not reached") 1500000000 acceptAll

/-- A request whose `job_spec` is the empty document, the request. -/
def emptySpecRequest : Request := { Body := .ok emptySpecBody }

/-- A request whose `job_spec` is a scalar, the body. -/
def scalarSpecBody : String :=
  "\x7b\"job_spec\": \"docker\", \"source_archive\": \"s3://bucket/src.tar.gz\"\x7d"

/-- A request whose `job_spec` is a scalar, the envelope. -/
def scalarSpecPayload : JobBuilderPayload :=
  { JobSpec := "docker", SourceArchive := "s3://bucket/src.tar.gz" }

/-- A request whose `job_spec` is a scalar, the collaborators. -/
def scalarSpec : Deps :=
  stubDeps scalarSpecBody scalarSpecPayload (.str "docker")
    (.error "not reached") 1500000000 acceptAll

/-- A request whose `job_spec` is a scalar, the request. -/
def scalarSpecRequest : Request := { Body := .ok scalarSpecBody }

/-! ## The reconciliation step -/

theorem sourceOf_defaultArtifact : sourceOf (some defaultArtifact) = some placeholder := rfl

theorem isPlaceholder_defaultArtifact : isPlaceholder (some defaultArtifact) = true := by
  simp [isPlaceholder, sourceOf_defaultArtifact]

/-- On a list whose entries all have a source the loop ends without a panic
and reports whether some entry has the placeholder as its source. -/
theorem defaultArtifactSatisfied_of_sources (xs : List (Option TaskArtifact))
    (h : AllHaveSource xs) :
    defaultArtifactSatisfied (StringToPtr placeholder) xs = .ok (xs.any isPlaceholder) := by
  induction xs with
  | nil => rfl
  | cons x rest ih =>
    have hx : (sourceOf x).isSome = true := h x (List.mem_cons_self _ _)
    have hrest : AllHaveSource rest := fun y hy => h y (List.mem_cons_of_mem _ hy)
    cases x with
    | none => simp [sourceOf] at hx
    | some a =>
      cases hs : a.GetterSource with
      | none => simp [sourceOf, hs] at hx
      | some src =>
        by_cases hp : src = placeholder
        · simp [defaultArtifactSatisfied, deref, StringToPtr, hs, hp, isPlaceholder, sourceOf]
        · simp only [defaultArtifactSatisfied, deref, StringToPtr, hs, hp, if_false]
          rw [show defaultArtifactSatisfied (some placeholder) rest = .ok (rest.any isPlaceholder)
            from ih hrest]
          simp [isPlaceholder, sourceOf, hs, hp]

/-- The loop stops at the first entry whose source is the placeholder: the
entries behind it are not looked at. -/
theorem defaultArtifactSatisfied_of_first (pre post : List (Option TaskArtifact))
    (p : Option TaskArtifact) (hpre : AllHaveSource pre) (hp : isPlaceholder p = true) :
    defaultArtifactSatisfied (StringToPtr placeholder) (pre ++ p :: post) = .ok true := by
  induction pre with
  | nil =>
    cases p with
    | none => simp [isPlaceholder, sourceOf] at hp
    | some a =>
      cases hs : a.GetterSource with
      | none => simp [isPlaceholder, sourceOf, hs] at hp
      | some src =>
        have : src = placeholder := by simpa [isPlaceholder, sourceOf, hs] using hp
        simp [defaultArtifactSatisfied, deref, StringToPtr, hs, this]
  | cons x rest ih =>
    have hx : (sourceOf x).isSome = true := hpre x (List.mem_cons_self _ _)
    have hrest : AllHaveSource rest := fun y hy => hpre y (List.mem_cons_of_mem _ hy)
    cases x with
    | none => simp [sourceOf] at hx
    | some a =>
      cases hs : a.GetterSource with
      | none => simp [sourceOf, hs] at hx
      | some src =>
        by_cases hq : src = placeholder
        · simp [defaultArtifactSatisfied, deref, StringToPtr, hs, hq]
        · simp only [List.cons_append, defaultArtifactSatisfied, deref, StringToPtr, hs, hq,
            if_false]
          exact ih hrest

/-- The result of the step on a list whose entries all have a source. -/
theorem reconcile_of_sources (xs : List (Option TaskArtifact)) (h : AllHaveSource xs) :
    reconcile xs = .ok (if xs.any isPlaceholder then xs else some defaultArtifact :: xs) := by
  unfold reconcile
  rw [defaultArtifactSatisfied_of_sources xs h]
  cases xs.any isPlaceholder <;> simp

/-- The step leaves a list unchanged when an entry has the placeholder as its
source and every entry in front of it has a source. -/
theorem reconcile_of_first (pre post : List (Option TaskArtifact))
    (p : Option TaskArtifact) (hpre : AllHaveSource pre) (hp : isPlaceholder p = true) :
    reconcile (pre ++ p :: post) = .ok (pre ++ p :: post) := by
  unfold reconcile
  rw [defaultArtifactSatisfied_of_first pre post p hpre hp]

/-- C1: on a list whose entries all have a source, none of them the
placeholder, the reconciliation step returns a list one longer than its input:
entry 0 is the synthesized artifact (source the placeholder, no destination, no
options) and entries 1..n are the input in its order. -/
theorem reconcile_prepends_default (xs : List (Option TaskArtifact))
    (hsrc : AllHaveSource xs) (hno : ∀ x ∈ xs, sourceOf x ≠ some placeholder) :
    ∃ ys, reconcile xs = .ok ys ∧ ys.length = xs.length + 1 ∧
      ys[0]? = some (some
        { GetterSource := some placeholder, GetterOptions := none, RelativeDest := none }) ∧
      (∀ i, i < xs.length → ys[i + 1]? = xs[i]?) ∧ ys.drop 1 = xs := by
  have hany : xs.any isPlaceholder = false := by
    rw [List.any_eq_false]
    intro x hx
    simpa [isPlaceholder] using hno x hx
  refine ⟨some defaultArtifact :: xs, ?_, ?_, ?_, ?_, ?_⟩
  · rw [reconcile_of_sources xs hsrc, hany]; simp
  · simp
  · simp [defaultArtifact, StringToPtr]
  · intro i _; simp
  · simp

theorem reconcile_prepends_default_witness :
    ∃ ys, reconcile [some ⟨some "https://example.com/tool.tar.gz", none, some "local/tool"⟩]
        = .ok ys ∧ ys.length = 1 + 1 ∧
      ys[0]? = some (some
        { GetterSource := some placeholder, GetterOptions := none, RelativeDest := none }) ∧
      (∀ i, i < 1 → ys[i + 1]?
        = [some (⟨some "https://example.com/tool.tar.gz", none, some "local/tool"⟩ :
            TaskArtifact)][i]?) ∧
      ys.drop 1 = [some ⟨some "https://example.com/tool.tar.gz", none, some "local/tool"⟩] :=
  reconcile_prepends_default
    [some ⟨some "https://example.com/tool.tar.gz", none, some "local/tool"⟩]
    (by unfold AllHaveSource; decide) (by decide)

/-- C2: the list `[{destination: "local/x"}, {source: placeholder, destination:
"local/src"}]` has an entry whose source is the placeholder, yet the step does
not return it: the loop dereferences the missing source of the entry in front
and panics. -/
theorem reconcile_panics_before_placeholder :
    isPlaceholder (some ⟨some placeholder, none, some "local/src"⟩) = true ∧
    reconcile [some ⟨none, none, some "local/x"⟩,
        some ⟨some placeholder, none, some "local/src"⟩]
      = .error .nilDereference :=
  ⟨by decide, rfl⟩

/-- C3, as stated, fails: a list that names the placeholder twice is returned
as it is, with two entries whose source is the placeholder. -/
theorem reconcile_keeps_duplicates :
    ∃ ys, reconcile [some ⟨some placeholder, none, some "local/a"⟩,
        some ⟨some placeholder, none, some "local/b"⟩] = .ok ys ∧
      placeholderCount ys = 2 ∧ placeholderCount ys ≠ 1 :=
  ⟨[some ⟨some placeholder, none, some "local/a"⟩,
      some ⟨some placeholder, none, some "local/b"⟩],
    by simp [reconcile, defaultArtifactSatisfied, deref, StringToPtr], by decide, by decide⟩

/-- C3, amended: on a list whose entries all have a source the step returns a
list with at least one entry whose source is the placeholder: exactly one when
the input has at most one, and as many as the input otherwise. -/
theorem reconcile_placeholderCount (xs : List (Option TaskArtifact))
    (hsrc : AllHaveSource xs) :
    ∃ ys, reconcile xs = .ok ys ∧ placeholderCount ys = max 1 (placeholderCount xs) := by
  rw [reconcile_of_sources xs hsrc]
  cases hany : xs.any isPlaceholder with
  | true =>
    refine ⟨xs, by simp, ?_⟩
    have hpos : 0 < placeholderCount xs := by
      rw [placeholderCount, List.countP_pos_iff]
      simpa [List.any_eq_true] using hany
    omega
  | false =>
    refine ⟨some defaultArtifact :: xs, by simp, ?_⟩
    have hzero : placeholderCount xs = 0 := by
      rw [placeholderCount, List.countP_eq_zero]
      intro x hx
      have := (List.any_eq_false.mp hany) x hx
      simpa using this
    have hcons : placeholderCount (some defaultArtifact :: xs) = placeholderCount xs + 1 := by
      simp [placeholderCount, List.countP_cons, isPlaceholder_defaultArtifact]
    omega

theorem reconcile_placeholderCount_witness :
    ∃ ys, reconcile [some ⟨some "https://example.com/tool.tar.gz", none, none⟩,
        some ⟨some placeholder, none, some "local/src"⟩] = .ok ys ∧
      placeholderCount ys = max 1 (placeholderCount
        [some ⟨some "https://example.com/tool.tar.gz", none, none⟩,
          some ⟨some placeholder, none, some "local/src"⟩]) :=
  reconcile_placeholderCount
    [some ⟨some "https://example.com/tool.tar.gz", none, none⟩,
      some ⟨some placeholder, none, some "local/src"⟩]
    (by unfold AllHaveSource; decide)

/-- C4: the step has failure paths. An artifact without a source
(`artifacts: [{destination: "local/x"}]`) and a null entry (`artifacts: [null]`)
both make the loop dereference a nil pointer; the empty list is handled. -/
theorem reconcile_panics_on_nil :
    reconcile [some ⟨none, none, some "local/x"⟩] = .error .nilDereference ∧
    reconcile [none] = .error .nilDereference ∧
    reconcile [] = .ok [some defaultArtifact] :=
  ⟨rfl, rfl, rfl⟩

/-- C9: on a list whose entries all have a source the step is idempotent: it
returns a list, and applied to that list it returns it again. -/
theorem reconcile_idempotent (xs : List (Option TaskArtifact)) (hsrc : AllHaveSource xs) :
    ∃ ys, reconcile xs = .ok ys ∧ reconcile ys = .ok ys := by
  rw [reconcile_of_sources xs hsrc]
  cases hany : xs.any isPlaceholder with
  | true =>
    refine ⟨xs, by simp, ?_⟩
    rw [reconcile_of_sources xs hsrc, hany]; simp
  | false =>
    have hsrc2 : AllHaveSource (some defaultArtifact :: xs) := by
      intro x hx
      rcases List.mem_cons.mp hx with rfl | hx
      · rfl
      · exact hsrc x hx
    refine ⟨some defaultArtifact :: xs, by simp, ?_⟩
    rw [reconcile_of_sources _ hsrc2]
    simp [isPlaceholder_defaultArtifact]

theorem reconcile_idempotent_witness :
    ∃ ys, reconcile [some ⟨some "https://example.com/tool.tar.gz", none, none⟩] = .ok ys ∧
      reconcile ys = .ok ys :=
  reconcile_idempotent [some ⟨some "https://example.com/tool.tar.gz", none, none⟩]
    (by unfold AllHaveSource; decide)

/-! ## The handler -/

/-- A request that fails to decode is answered with 400 and nothing else
happens. -/
theorem BuildJob_of_decode_error (self : Deps) (req : Request) (e : String)
    (h : decodeRequest self req = .error e) :
    BuildJob self req = { Codes := [StatusBadRequest] } := by
  unfold decodeRequest at h
  unfold BuildJob
  cases hb : req.Body with
  | error e1 => rfl
  | ok body =>
    simp only [hb] at h ⊢
    cases hj : self.jsonUnmarshal body with
    | error e2 => rfl
    | ok payload =>
      simp only [hj] at h ⊢
      cases hy : yamlUnmarshal self payload.JobSpec with
      | error e3 => rfl
      | ok untyped =>
        simp only [hy] at h ⊢
        cases hm : mapstructureDecode self untyped with
        | error e4 => rfl
        | ok jobSpec => simp [hm] at h

/-- What the handler does with a decoded request. -/
theorem BuildJob_of_decoded (self : Deps) (req : Request) (payload : JobBuilderPayload)
    (jobSpec : JobSpec) (h : decodeRequest self req = .ok (payload, jobSpec)) :
    BuildJob self req =
      match reconcile jobSpec.Artifacts with
      | .error p => { Panicked := some p }
      | .ok artifacts =>
        match self.Register
          (assemble (jobIdOf self.now) { jobSpec with Artifacts := artifacts } payload) with
        | .error _ =>
          { Codes := [StatusInternalServerError],
            Registered :=
              [assemble (jobIdOf self.now) { jobSpec with Artifacts := artifacts } payload] }
        | .ok _ =>
          { Codes := [StatusNoContent],
            Registered :=
              [assemble (jobIdOf self.now) { jobSpec with Artifacts := artifacts } payload] } := by
  unfold decodeRequest at h
  unfold BuildJob
  cases hb : req.Body with
  | error e1 => simp [hb] at h
  | ok body =>
    simp only [hb] at h ⊢
    cases hj : self.jsonUnmarshal body with
    | error e2 => simp [hj] at h
    | ok payload1 =>
      simp only [hj] at h ⊢
      cases hy : yamlUnmarshal self payload1.JobSpec with
      | error e3 => simp [hy] at h
      | ok untyped =>
        simp only [hy] at h ⊢
        cases hm : mapstructureDecode self untyped with
        | error e4 => simp [hm] at h
        | ok jobSpec1 =>
          simp only [hm, Except.ok.injEq, Prod.mk.injEq] at h ⊢
          obtain ⟨rfl, rfl⟩ := h
          rfl

/-- Every job the handler passes to the scheduler is the job literal, filled
from some decoded request, under the identifier of the current second. -/
theorem mem_Registered (self : Deps) (req : Request) (j : Job)
    (h : j ∈ (BuildJob self req).Registered) :
    ∃ jobSpec payload, j = assemble (jobIdOf self.now) jobSpec payload := by
  cases hd : decodeRequest self req with
  | error e =>
    rw [BuildJob_of_decode_error self req e hd] at h
    simp at h
  | ok r =>
    obtain ⟨payload, jobSpec⟩ := r
    rw [BuildJob_of_decoded self req payload jobSpec hd] at h
    cases hr : reconcile jobSpec.Artifacts with
    | error p => simp [hr] at h
    | ok artifacts =>
      simp only [hr] at h
      cases hreg : self.Register
          (assemble (jobIdOf self.now) { jobSpec with Artifacts := artifacts } payload) with
      | error e =>
        simp only [hreg, List.mem_singleton] at h
        exact ⟨_, _, h⟩
      | ok resp =>
        simp only [hreg, List.mem_singleton] at h
        exact ⟨_, _, h⟩

/-- Status and scheduler calls of a request whose reconciliation completes: 400
and no call when a decoding stage fails, otherwise one call, and 500 or 204 with
its result; nothing is ever written to the response body. -/
theorem BuildJob_stages (self : Deps) (req : Request) :
    (BuildJob self req).Written = [] ∧
    (∀ e, decodeRequest self req = .error e →
      (BuildJob self req).Codes = [400] ∧ (BuildJob self req).Registered = []) ∧
    (∀ payload jobSpec artifacts, decodeRequest self req = .ok (payload, jobSpec) →
      reconcile jobSpec.Artifacts = .ok artifacts →
      ∃ j, (BuildJob self req).Registered = [j] ∧
        ((∃ e, self.Register j = .error e ∧ (BuildJob self req).Codes = [500]) ∨
         (∃ r, self.Register j = .ok r ∧ (BuildJob self req).Codes = [204]))) := by
  refine ⟨?_, ?_, ?_⟩
  · cases hd : decodeRequest self req with
    | error e => rw [BuildJob_of_decode_error self req e hd]
    | ok r =>
      obtain ⟨payload, jobSpec⟩ := r
      rw [BuildJob_of_decoded self req payload jobSpec hd]
      cases reconcile jobSpec.Artifacts with
      | error p => rfl
      | ok artifacts =>
        simp only
        cases self.Register
          (assemble (jobIdOf self.now) { jobSpec with Artifacts := artifacts } payload) <;> rfl
  · intro e hd
    rw [BuildJob_of_decode_error self req e hd]
    exact ⟨rfl, rfl⟩
  · intro payload jobSpec artifacts hd hr
    rw [BuildJob_of_decoded self req payload jobSpec hd]
    simp only [hr]
    refine ⟨assemble (jobIdOf self.now) { jobSpec with Artifacts := artifacts } payload, ?_, ?_⟩
    · cases self.Register
        (assemble (jobIdOf self.now) { jobSpec with Artifacts := artifacts } payload) <;> rfl
    · cases hreg : self.Register
        (assemble (jobIdOf self.now) { jobSpec with Artifacts := artifacts } payload) with
      | error e => exact Or.inl ⟨e, rfl, rfl⟩
      | ok r => exact Or.inr ⟨r, rfl, rfl⟩

/-- C5: the request whose `job_spec` is
`driver: docker\nartifacts:\n- destination: local/x\n` passes all four decoding
stages, yet the handler writes no status and never calls the scheduler: it
panics in the reconciliation loop. -/
theorem BuildJob_panics_on_sourceless_artifact :
    decodeRequest sourceless sourcelessRequest = .ok (sourcelessPayload, sourcelessSpec) ∧
    (BuildJob sourceless sourcelessRequest).Codes = [] ∧
    (BuildJob sourceless sourcelessRequest).Registered = [] ∧
    (BuildJob sourceless sourcelessRequest).Panicked = some .nilDereference :=
  ⟨rfl, rfl, rfl, rfl⟩

/-- C6: every job the handler passes to the scheduler has type `batch`, the
datacenters `["dc1"]`, exactly one task group, named `builder`, with restart
policy attempts 0 and mode `fail`, and in it exactly one task, named `builder`,
whatever the request, the clock and the scheduler are. -/
theorem BuildJob_fixed_shape (self : Deps) (req : Request) (j : Job)
    (h : j ∈ (BuildJob self req).Registered) :
    j.Type_ = some "batch" ∧ j.Datacenters = ["dc1"] ∧
    ∃ g t, j.TaskGroups = [some g] ∧ g.Name = some "builder" ∧
      g.RestartPolicy = some { Attempts := some 0, Mode := some "fail" } ∧
      g.Tasks = [some t] ∧ t.Name = "builder" := by
  obtain ⟨jobSpec, payload, rfl⟩ := mem_Registered self req j h
  exact ⟨rfl, rfl, _, _, rfl, rfl, rfl, rfl, rfl⟩

theorem BuildJob_fixed_shape_witness :
    (BuildJob scenarioA scenarioARequest).Registered = [scenarioAJob] ∧
    HasFixedShape scenarioAJob :=
  ⟨rfl, BuildJob_fixed_shape scenarioA scenarioARequest scenarioAJob
    (List.mem_singleton.mpr rfl)⟩

/-- C7: for a request that decodes to the payload and the `JobSpec` `jobSpec`,
whose artifact list reconciles to `artifacts`, the scheduler receives one job;
its single task has the driver, config, env and resources of `jobSpec`, the
artifacts `artifacts`, and a meta map with the one entry
`nomadci.clone_source`, the source archive of the payload. -/
theorem BuildJob_task_passthrough (self : Deps) (req : Request)
    (payload : JobBuilderPayload) (jobSpec : JobSpec)
    (artifacts : List (Option TaskArtifact))
    (hdec : decodeRequest self req = .ok (payload, jobSpec))
    (hrec : reconcile jobSpec.Artifacts = .ok artifacts) :
    ∃ j g t, (BuildJob self req).Registered = [j] ∧
      j.TaskGroups = [some g] ∧ g.Tasks = [some t] ∧
      t.Driver = jobSpec.Driver ∧ t.Config = jobSpec.Config ∧ t.Env = jobSpec.Env ∧
      t.Resources = jobSpec.Resources ∧ t.Artifacts = artifacts ∧
      t.Meta = some [("nomadci.clone_source", payload.SourceArchive)] := by
  rw [BuildJob_of_decoded self req payload jobSpec hdec]
  simp only [hrec]
  refine ⟨assemble (jobIdOf self.now) { jobSpec with Artifacts := artifacts } payload,
    _, _, ?_, rfl, rfl, rfl, rfl, rfl, rfl, rfl, rfl⟩
  cases self.Register
    (assemble (jobIdOf self.now) { jobSpec with Artifacts := artifacts } payload) <;> rfl

theorem BuildJob_task_passthrough_witness :
    ∃ j g t, (BuildJob scenarioA scenarioARequest).Registered = [j] ∧
      j.TaskGroups = [some g] ∧ g.Tasks = [some t] ∧
      t.Driver = "docker" ∧ t.Config = some [("image", .str "alpine")] ∧ t.Env = none ∧
      t.Resources = none ∧
      t.Artifacts = [some
        { GetterSource := some placeholder, GetterOptions := none, RelativeDest := none }] ∧
      t.Meta = some [("nomadci.clone_source", "s3://bucket/src.tar.gz")] :=
  BuildJob_task_passthrough scenarioA scenarioARequest scenarioAPayload scenarioASpec
    [some defaultArtifact] rfl rfl

/-- C8: every job the handler passes to the scheduler has its id equal to its
name, both `ci-job/` followed by the decimal rendering of the current Unix
second; so two jobs assembled in the same second have the same id and name,
whatever the two requests contain. -/
theorem BuildJob_job_id :
    (∀ (self : Deps) (req : Request) (j : Job), j ∈ (BuildJob self req).Registered →
      j.ID = some ("ci-job/" ++ toString self.now) ∧ j.Name = j.ID) ∧
    (∀ (self₁ self₂ : Deps) (req₁ req₂ : Request) (j₁ j₂ : Job),
      self₁.now = self₂.now →
      j₁ ∈ (BuildJob self₁ req₁).Registered → j₂ ∈ (BuildJob self₂ req₂).Registered →
      j₁.ID = j₂.ID ∧ j₁.Name = j₂.Name) := by
  have key : ∀ (self : Deps) (req : Request) (j : Job), j ∈ (BuildJob self req).Registered →
      j.ID = some ("ci-job/" ++ toString self.now) ∧ j.Name = j.ID := by
    intro self req j h
    obtain ⟨jobSpec, payload, rfl⟩ := mem_Registered self req j h
    exact ⟨rfl, rfl⟩
  refine ⟨key, ?_⟩
  intro self₁ self₂ req₁ req₂ j₁ j₂ hnow h₁ h₂
  obtain ⟨a₁, b₁⟩ := key self₁ req₁ j₁ h₁
  obtain ⟨a₂, b₂⟩ := key self₂ req₂ j₂ h₂
  rw [b₁, b₂, a₁, a₂, hnow]
  exact ⟨rfl, rfl⟩

theorem BuildJob_job_id_witness :
    (BuildJob scenarioA scenarioARequest).Registered = [scenarioAJob] ∧
    (BuildJob other otherRequest).Registered = [otherJob] ∧
    scenarioAPayload ≠ otherPayload ∧
    (scenarioAJob.ID = some ("ci-job/" ++ toString scenarioA.now) ∧
      scenarioAJob.Name = scenarioAJob.ID) ∧
    (scenarioAJob.ID = otherJob.ID ∧ scenarioAJob.Name = otherJob.Name) :=
  ⟨rfl, rfl, by decide,
    BuildJob_job_id.1 scenarioA scenarioARequest scenarioAJob (List.mem_singleton.mpr rfl),
    BuildJob_job_id.2 scenarioA other scenarioARequest otherRequest scenarioAJob otherJob rfl
      (List.mem_singleton.mpr rfl) (List.mem_singleton.mpr rfl)⟩

/-- C10, as stated, fails: the empty `job_spec` parses to null, which is not a
mapping, yet the request is answered with 204 and the scheduler receives the
job of the zero-valued `JobSpec` (empty driver, no config). -/
theorem BuildJob_registers_empty_spec :
    emptySpec.yamlParse emptySpecPayload.JobSpec = .ok .null ∧
    Value.isMapping .null = false ∧
    decodeRequest emptySpec emptySpecRequest = .ok (emptySpecPayload, {}) ∧
    (BuildJob emptySpec emptySpecRequest).Codes = [204] ∧
    (BuildJob emptySpec emptySpecRequest).Registered =
      [assemble "ci-job/1500000000"
        { Driver := "", Config := none, Artifacts := [some defaultArtifact],
          Env := none, Resources := none }
        emptySpecPayload] :=
  ⟨rfl, rfl, rfl, rfl, rfl⟩

/-- C10, amended: when the markup of `job_spec` parses to a top-level value that
is neither null nor a mapping (a scalar or a list), the request is answered with
400 and the scheduler is never called; when it parses to null (an empty or null
document), decoding succeeds with the zero-valued `JobSpec` and its job is
passed to the scheduler. -/
theorem BuildJob_non_mapping (self : Deps) (req : Request) (body : String)
    (payload : JobBuilderPayload) (v : Value)
    (hbody : req.Body = .ok body) (hjson : self.jsonUnmarshal body = .ok payload)
    (hparse : self.yamlParse payload.JobSpec = .ok v) :
    (v ≠ .null → v.isMapping = false →
      (BuildJob self req).Codes = [400] ∧ (BuildJob self req).Registered = []) ∧
    (v = .null →
      decodeRequest self req = .ok (payload, {}) ∧
      (BuildJob self req).Registered =
        [assemble (jobIdOf self.now) { Artifacts := [some defaultArtifact] } payload] ∧
      ((BuildJob self req).Codes = [204] ∨ (BuildJob self req).Codes = [500])) := by
  constructor
  · intro hnull hmap
    have hd : ∃ e, decodeRequest self req = .error e := by
      unfold decodeRequest
      simp only [hbody, hjson, yamlUnmarshal, hparse]
      cases v <;> simp_all [unmarshalIntoMap, Value.isMapping]
    obtain ⟨e, he⟩ := hd
    rw [BuildJob_of_decode_error self req e he]
    exact ⟨rfl, rfl⟩
  · rintro rfl
    have hd : decodeRequest self req = .ok (payload, {}) := by
      unfold decodeRequest
      simp only [hbody, hjson, yamlUnmarshal, hparse, unmarshalIntoMap, mapstructureDecode]
    refine ⟨hd, ?_⟩
    rw [BuildJob_of_decoded self req payload {} hd]
    have hr : reconcile ({} : JobSpec).Artifacts = .ok [some defaultArtifact] := rfl
    simp only [hr]
    cases self.Register
      (assemble (jobIdOf self.now) { ({} : JobSpec) with Artifacts := [some defaultArtifact] }
        payload) with
    | error e => exact ⟨rfl, Or.inr rfl⟩
    | ok r => exact ⟨rfl, Or.inl rfl⟩

theorem BuildJob_non_mapping_witness :
    ((BuildJob scalarSpec scalarSpecRequest).Codes = [400] ∧
      (BuildJob scalarSpec scalarSpecRequest).Registered = []) ∧
    (decodeRequest emptySpec emptySpecRequest = .ok (emptySpecPayload, {}) ∧
      (BuildJob emptySpec emptySpecRequest).Registered =
        [assemble (jobIdOf emptySpec.now) { Artifacts := [some defaultArtifact] }
          emptySpecPayload] ∧
      ((BuildJob emptySpec emptySpecRequest).Codes = [204] ∨
        (BuildJob emptySpec emptySpecRequest).Codes = [500])) :=
  ⟨(BuildJob_non_mapping scalarSpec scalarSpecRequest scalarSpecBody scalarSpecPayload
      (.str "docker") rfl rfl rfl).1 (fun h => Value.noConfusion h) rfl,
    (BuildJob_non_mapping emptySpec emptySpecRequest emptySpecBody emptySpecPayload
      .null rfl rfl rfl).2 rfl⟩

end JobBuilder
